import Mathlib

/-!
# Verification of the StoryTeller combat engine (YUASDS/official_bot)

Shallow embedding of the combat-resolution core of the repository:
`plugins/StoryTeller/dice.py`, `Fight.py`, `Investigator.py`, `GlobalData.py`,
together with theorems settling the frozen claims about it.

Modelling conventions:
* Python `random.randint(a, b)` is modelled by popping one value from an
  explicit list of pre-drawn naturals and reducing it into `[a, b]`
  (`0` when the list is exhausted); it errors — as the Python call does —
  exactly when `b < a`.  Every value of `[a, b]` is reachable, so theorems
  quantified over the draw list cover every run of the program.
* Python exceptions (`ValueError` from `int`, from `randint`, unpacking
  errors) are modelled with `Except String`.
* The float division `roll / skill` in `_calculate_success_level` is
  modelled by exact division in `ℚ`: for the values that reach it
  (`1 ≤ roll ≤ 100`, integer skill) IEEE-double division is correctly
  rounded and its comparisons against the literals `1`, `0.5` and `0.2`
  agree with the exact rational comparisons, because whenever the exact
  ratio differs from the threshold it differs by at least `1/2500`,
  far above the rounding error.
-/

deriving instance DecidableEq for Except

namespace StoryTeller

/-! ## dice.py — success levels -/

/- dice.py `class SuccessLevel`: the integer constants used as an ordered
success scale. -/
namespace SuccessLevel

def CRITICAL_FAILURE : Int := -1

def FAILURE : Int := 0

def SUCCESS : Int := 1

def HARD_SUCCESS : Int := 2

def EXTREME_SUCCESS : Int := 3

def CRITICAL_SUCCESS : Int := 4

end SuccessLevel

/-- dice.py `DiceRoll._calculate_success_level(skill, roll)`.  The Python
float ratio `roll / skill` is modelled by the exact rational (see the file
header); `0.5` and `0.2` are `1/2` and `1/5`.  Python raises
`ZeroDivisionError` for `skill = 0`; here the `ℚ` convention `x / 0 = 0`
applies instead, so theorems about this function assume `1 ≤ skill`. -/
def calculate_success_level (skill roll : ℕ) : Int :=
  if roll > 95 then SuccessLevel.CRITICAL_FAILURE
  else if roll < 6 then SuccessLevel.CRITICAL_SUCCESS
  else
    let success_ratio : ℚ := (roll : ℚ) / (skill : ℚ)
    if success_ratio > 1 then SuccessLevel.FAILURE
    else if success_ratio > 1/2 then SuccessLevel.SUCCESS
    else if success_ratio > 1/5 then SuccessLevel.HARD_SUCCESS
    else SuccessLevel.EXTREME_SUCCESS

/-- dice.py `ConfrontationRoll._check_confrontation(level1, level2, action_type)`.
`skill1`/`skill2` are the instance fields read by the default branch. -/
def check_confrontation (skill1 skill2 : ℕ) (level1 level2 : Int)
    (action_type : String) : Bool :=
  if action_type = "闪避" then decide (level1 > level2)
  else if action_type = "反击" then
    if level1 ≤ SuccessLevel.FAILURE then false
    else decide (level1 ≥ level2)
  else if level1 ≠ level2 then decide (level1 > level2)
  else decide (skill1 ≥ skill2)

/-! ## Randomness model -/

/-- Pop one pre-drawn value from the stream (`0` when exhausted). -/
def drawNat : List ℕ → ℕ × List ℕ
  | [] => (0, [])
  | v :: r => (v, r)

/-- Model of Python `random.randint(a, b)`: a uniform draw from `[a, b]`,
raising `ValueError` when `b < a`.  The popped stream value is reduced into
the range, so every value of the range is reachable. -/
def randint (a b : Int) (rng : List ℕ) : Except String (Int × List ℕ) :=
  if b < a then .error "ValueError: empty range for randrange"
  else
    let (v, rng') := drawNat rng
    .ok (a + (v : Int) % (b - a + 1), rng')

/-- dice.py `DiceRoll._roll_d100`: `random.randint(1, 100)` (never fails,
so the `Except` wrapper is dropped; the value formula is that of
`randint 1 100`). -/
def roll_d100 (rng : List ℕ) : ℕ × List ℕ :=
  let (v, rng') := drawNat rng
  (1 + v % 100, rng')

/-! ## dice.py — roll_dice (expression parser and roller) -/

/-- Python `str.isdigit` restricted to ASCII (the only digits occurring in
dice expressions): nonempty and all characters `0`–`9`. -/
def pyIsDigit (s : List Char) : Bool :=
  !s.isEmpty && s.all Char.isDigit

/-- Numeric value of an all-digit character list. -/
def digitsToNat (s : List Char) : ℕ :=
  s.foldl (fun acc c => 10 * acc + (c.toNat - '0'.toNat)) 0

/-- Strip leading and trailing spaces (Python `str.strip`; space is the
only whitespace character the expressions can contain). -/
def stripSpaces (s : List Char) : List Char :=
  ((s.dropWhile (· = ' ')).reverse.dropWhile (· = ' ')).reverse

/-- Python `int(s)` on a string: optional sign before a nonempty digit run,
surrounding whitespace allowed, `ValueError` otherwise.  (Python's digit
grouping with underscores is not modelled; no expression in the repository
uses it.) -/
def pyInt (s : List Char) : Except String Int :=
  match stripSpaces s with
  | '+' :: rest =>
    if pyIsDigit rest then .ok (digitsToNat rest : Int)
    else .error "ValueError: invalid literal for int"
  | '-' :: rest =>
    if pyIsDigit rest then .ok (-(digitsToNat rest : Int))
    else .error "ValueError: invalid literal for int"
  | t =>
    if pyIsDigit t then .ok (digitsToNat t : Int)
    else .error "ValueError: invalid literal for int"

/-- Python `s.replace(c, "")` for a single character. -/
def removeChar (c : Char) (s : List Char) : List Char :=
  s.filter (· ≠ c)

/-- Python `s.replace(old, new)` (all non-overlapping occurrences, left to
right), by structural recursion on a character budget so that closed
instances compute by reduction; the budget `s.length` suffices because
every step consumes at least one character.  (The callers never pass an
empty pattern, for which Python would interleave `new` between the
characters.) -/
def pyReplaceAux (pat rep : List Char) : ℕ → List Char → List Char
  | 0, s => s
  | _ + 1, [] => []
  | n + 1, c :: cs =>
    if !pat.isEmpty && pat.isPrefixOf (c :: cs) then
      rep ++ pyReplaceAux pat rep n (List.drop pat.length (c :: cs))
    else
      c :: pyReplaceAux pat rep n cs

def pyReplace (s pat rep : String) : String :=
  if pat.data.isEmpty then s
  else ⟨pyReplaceAux pat.data rep.data s.data.length s.data⟩

/-- Python `s.startswith(pre)`. -/
def strStartsWith (s pre : String) : Bool :=
  pre.data.isPrefixOf s.data

/-- Drop the first `n` characters (Python `s[n:]`). -/
def strDrop (s : String) (n : ℕ) : String :=
  ⟨s.data.drop n⟩

/-- `detail.replace(" ", "")` on a `String`. -/
def removeSpaces (s : String) : String :=
  ⟨removeChar ' ' s.data⟩

def splitOnCharAux (c : Char) : List Char → List Char → List (List Char)
  | [], acc => [acc.reverse]
  | x :: xs, acc =>
    if x = c then acc.reverse :: splitOnCharAux c xs []
    else splitOnCharAux c xs (x :: acc)

/-- Python `s.split(c)` for a one-character separator (always at least one
piece; a separator at either end yields an empty piece). -/
def splitOnChar (c : Char) (s : List Char) : List (List Char) :=
  splitOnCharAux c s []

/-- The manual scan in dice.py `roll_dice` that splits the space-free
expression into term and operator parts: a `+`/`-` flushes the current
term only when that term is nonempty (so a leading sign is absorbed into
the first term). -/
def splitParts : List Char → List Char → List (List Char)
  | [], current => if current.isEmpty then [] else [current.reverse]
  | ch :: rest, current =>
    if (ch = '+' || ch = '-') && !current.isEmpty then
      current.reverse :: [ch] :: splitParts rest []
    else
      splitParts rest (ch :: current)

/-- `[random.randint(1, sides) for _ in range(count)]`. -/
def rollN (sides : Int) : ℕ → List ℕ → Except String (List Int × List ℕ)
  | 0, rng => .ok ([], rng)
  | n + 1, rng => do
    let (v, rng1) ← randint 1 sides rng
    let (vs, rng2) ← rollN sides n rng1
    .ok (v :: vs, rng2)

/-- The `count`/`sides` parsing of one dice term: `part.startswith("d")`
means `count = 1, sides = int(part[1:])`; otherwise
`count, sides = map(int, part.split("d"))`, which must unpack exactly two
pieces (`ValueError` otherwise). -/
def parse_dice_term (part : List Char) : Except String (Int × Int) :=
  match part with
  | 'd' :: rest => do
    let sides ← pyInt rest
    pure ((1 : Int), sides)
  | _ =>
    match splitOnChar 'd' part with
    | [a, b] => do
      let count ← pyInt a
      let sides ← pyInt b
      pure (count, sides)
    | _ => Except.error "ValueError: unpack"

/-- dice.py `roll_dice.roll_single_dice(part)`: value and detail string of
one term.  The random branch errors — inside `randint` — exactly when
`sides < 1` and at least one die is rolled.  The maximum branch computes
`count * sides` directly (without rolling). -/
def roll_single_dice (use_max : Bool) (part0 : List Char) (rng : List ℕ) :
    Except String (Int × String × List ℕ) := do
  let part := stripSpaces part0
  if part.contains 'd' then
    let cs ← parse_dice_term part
    let (count, sides) := cs
    if use_max then
      let rolls := List.replicate count.toNat sides
      let detail := String.intercalate " + " (rolls.map toString)
      .ok (count * sides, detail, rng)
    else
      let (rolls, rng') ← rollN sides count.toNat rng
      let detail := String.intercalate " + " (rolls.map toString)
      .ok (rolls.sum, removeSpaces detail, rng')
  else do
    let v ← pyInt part
    .ok (v, ⟨part⟩, rng)

/-- The operator loop at the end of dice.py `roll_dice`: walks the parts;
a single-character `+`/`-` part sets the pending operator (the Python test
is `part in "+-"`, but the scan never produces `""` or `"+-"` parts, so
the substring test coincides with equality); any other part is rolled and
added or subtracted.  Detail strings accumulate in reverse. -/
def rollParts (use_max : Bool) :
    List (List Char) → Char → Int → List String → List ℕ →
    Except String (List String × Int × List ℕ)
  | [], _, total, details, rng => .ok (details.reverse, total, rng)
  | p :: ps, op, total, details, rng =>
    if p = ['+'] || p = ['-'] then
      rollParts use_max ps (p.headD '+') total details rng
    else do
      let (result, detail, rng') ← roll_single_dice use_max p rng
      if op = '+' then
        rollParts use_max ps op (total + result) (("+ " ++ detail) :: details) rng'
      else
        rollParts use_max ps op (total - result) (("- " ++ detail) :: details) rng'

/-- dice.py `roll_dice(dice_expression, use_max)`: `(detail, total)` plus
the remaining draw stream.  The first branch is the pure-number shortcut:
when deleting `+`, `-` and spaces leaves only digits, the function returns
`int(dice_expression)` — which itself raises `ValueError` when the whole
expression is not a plain optionally-signed integer (e.g. `"3+4"`). -/
def roll_dice (dice_expression : String) (use_max : Bool) (rng : List ℕ) :
    Except String (String × Int × List ℕ) := do
  let chars := dice_expression.data
  if pyIsDigit (removeChar ' ' (removeChar '-' (removeChar '+' chars))) then
    let v ← pyInt chars
    .ok (dice_expression, v, rng)
  else
    let expression := removeChar ' ' chars
    let parts := splitParts expression []
    if parts.length = 1 then do
      let rdr ← roll_single_dice use_max (parts.headD []) rng
      let (result, detail, rng') := rdr
      .ok (removeSpaces detail, result, rng')
    else do
      let dtr ← rollParts use_max parts '+' 0 [] rng
      let (details0, total, rng') := dtr
      let details :=
        match details0 with
        | d :: rest => if strStartsWith d "+ " then (strDrop d 2) :: rest else d :: rest
        | [] => []
      let detail_str := String.intercalate " " details
      .ok (removeSpaces detail_str, total, rng')

/-- dice.py `get_success_description`. -/
def get_success_description (rank : Int) : String :=
  if rank = SuccessLevel.CRITICAL_FAILURE then "大失败"
  else if rank = SuccessLevel.FAILURE then "失败"
  else if rank = SuccessLevel.SUCCESS then "成功"
  else if rank = SuccessLevel.HARD_SUCCESS then "困难成功"
  else if rank = SuccessLevel.EXTREME_SUCCESS then "极难成功"
  else if rank = SuccessLevel.CRITICAL_SUCCESS then "大成功"
  else "未知"

/-- Outcome of dice.py `PenaltyDiceRoll(skill)` as its callers read it
(base d100 roll, drawn penalty value, composed final result, success
level of the final result). -/
structure PenaltyRoll where
  dice : ℕ
  penalty_value : ℕ
  final_result : ℕ
  level : Int
deriving Repr, DecidableEq

/-- dice.py `PenaltyDiceRoll.__init__` with the default single penalty
die (the only form the callers use): roll d100, draw a penalty value in
`0..9` (`random.randint(0, 9)`), swap it in as tens digit when it
exceeds the roll's own tens digit, keep the worse (larger) of the
composed roll and the base roll, and recompute the success level from
that final result. -/
def penalty_dice_roll (skill : ℕ) (rng : List ℕ) : PenaltyRoll × List ℕ :=
  let (dice, rng1) := roll_d100 rng
  let (v, rng2) := drawNat rng1
  let penalty_value := v % 10
  let penalty_roll :=
    if dice / 10 < penalty_value then dice % 10 + penalty_value * 10 else dice
  let final_result := max penalty_roll dice
  ({ dice := dice, penalty_value := penalty_value, final_result := final_result,
     level := calculate_success_level skill final_result }, rng2)

/-! ## Fight.py — damage computation -/

/-- Fight.py `CombatSystem._double_damage(damage)`: one maximum roll plus
one random roll of the same expression. -/
def double_damage (damage : String) (rng : List ℕ) :
    Except String (String × Int × List ℕ) := do
  let mx ← roll_dice damage true rng
  let (max_detail, max_val, rng1) := mx
  let rd ← roll_dice damage false rng1
  let (rand_detail, rand_val, rng2) := rd
  .ok (max_detail ++ "+" ++ damage ++ "=" ++ max_detail ++ "+" ++ rand_detail,
    max_val + rand_val, rng2)

/-- Fight.py `CombatSystem._calculate_damage_expression(damage,
success_level, extra_damage, armor)` (the omitted arguments default to
`0` at the call sites).  `extra_damage` carries the penetration flag at
the melee/ranged call sites (`True`, i.e. `1`) and
`monster_action.get("ex", 0)` at the monster-attack site; the Python
truthiness tests on `extra_damage` and `armor` are the `≠ 0` tests.
This is the first stage of the function (lines 501–509): the pre-armor
expression and total — doubled damage on a level above HardSuccess with
the penetration flag, maximum roll on a level above HardSuccess without
it, a plain random roll (trace = the raw expression) otherwise. -/
def damage_base_expression (damage : String) (success_level : Int)
    (extra_damage : Int) (rng : List ℕ) :
    Except String (String × Int × List ℕ) :=
  if success_level > SuccessLevel.HARD_SUCCESS ∧ extra_damage ≠ 0 then
    double_damage damage rng
  else if success_level > SuccessLevel.HARD_SUCCESS then
    roll_dice damage true rng
  else do
    let r ← roll_dice damage false rng
    pure (damage, r.2.1, r.2.2)

/-- `_calculate_damage_expression`, second stage (lines 511–516): apply
the armor to the base expression's total. -/
def calculate_damage_expression (damage : String) (success_level : Int)
    (extra_damage : Int) (armor : Int) (rng : List ℕ) :
    Except String (String × Int × List ℕ) := do
  let base ← damage_base_expression damage success_level extra_damage rng
  let (expression, total_damage, rng') := base
  if armor ≠ 0 then
    .ok (expression ++ "-" ++ toString armor, max 0 (total_damage - armor), rng')
  else
    .ok (expression, total_damage, rng')

/-! ## External catalogs and session state -/

/-- One record of the equipment catalog (`data/goods_data.json`, external
content): each field is `none` when the JSON entry omits the key, so that
the `EquipmentService` / `break_equipped_item` per-field defaults
apply. -/
structure GoodsEntry where
  name : Option String
  damage : Option String
  identify_skill : Option String
  ex : Option Bool
  breakable : Option Bool
  armor : Option Int
  reply : Option String
deriving Repr, DecidableEq

/-- The goods catalog `data_manager.goods_data`: id ↦ entry, `none` for an
unknown id. -/
def Goods : Type := String → Option GoodsEntry

/-- Equipment.py `EquipmentService.get_equipment_name`. -/
def get_equipment_name (goods : Goods) (equipment_id : String) : String :=
  ((goods equipment_id).bind (fun e => e.name)).getD "未知装备"

/-- Equipment.py `EquipmentService.get_equipment_damage`. -/
def get_equipment_damage (goods : Goods) (equipment_id : String) : String :=
  ((goods equipment_id).bind (fun e => e.damage)).getD "1d4"

/-- Equipment.py `EquipmentService.has_penetration_effect` (field `"ex"`,
default `False`). -/
def has_penetration_effect (goods : Goods) (equipment_id : String) : Bool :=
  ((goods equipment_id).bind (fun e => e.ex)).getD false

/-- Equipment.py `EquipmentService.get_identify_skill`. -/
def get_identify_skill (goods : Goods) (equipment_id : String) : String :=
  ((goods equipment_id).bind (fun e => e.identify_skill)).getD "射击"

/-- Equipment.py `EquipmentService.get_equipment_reply`. -/
def get_equipment_reply (goods : Goods) (equipment_id : String) : String :=
  ((goods equipment_id).bind (fun e => e.reply)).getD ""

/-- GlobalData.py `action2part`: the action → equipment-slot map (an
unmapped action yields `""`).  Note: the map has no entry for
`"二连射"` although the player-action table dispatches it. -/
def action2part (action : String) : String :=
  if action = "格斗" then "近战"
  else if action = "反击" then "近战"
  else if action = "斧" then "近战"
  else if action = "剑" then "近战"
  else if action = "电锯" then "近战"
  else if action = "射击" then "远程"
  else if action = "三连射" then "远程"
  else if action = "换弹" then "远程"
  else if action = "防具" then "防具"
  else ""

/-- The session-local state the combat actions mutate: the investigator's
`equipped_items` map (slot ↦ item id), the hit-point record for both
sides, the ammunition counters, the truthiness of `self.gun`, and the
remaining random draws.  `current_turn` and the rendered prompts never
enter a claim; `self._end_turn()` — the turn flip / termination epilogue
appended as the last tuple entry of each resolved action — is outside the
embedded fragment, so each embedded action returns the state and messages
as they stand when `_end_turn` is entered. -/
structure FightState where
  equipped : List (String × String)
  inv_hp : Int
  mon_hp : Int
  bullet : Int
  max_bullet : Int
  gun : Bool
  rng : List ℕ
deriving Repr, DecidableEq

/-- Python `dict.get(key, "")` on the equipped-items map. -/
def dictGet (d : List (String × String)) (k : String) : String :=
  match d.find? (fun p => p.1 == k) with
  | some p => p.2
  | none => ""

/-- Investigator.py `InvestigatorService.get_equipped_id(qq, action=...)`
restricted to the session's own investigator record: the equipped map at
slot `action2part action` (`""` when the slot is empty). -/
def get_equipped_id (st : FightState) (action : String) : String :=
  dictGet st.equipped (action2part action)

/-- Investigator.py `InvestigatorService.break_equipped_item(qq, action)`:
looks up the item equipped on the action's slot; returns `False` without
touching the state when the slot is empty or when the item's catalog
entry carries `breakable: false` (`True` is the default); otherwise pops
the slot from the equipped map.  (The parallel
`remove_item_from_inventory` call touches only the external inventory
table.) -/
def break_equipped_item (goods : Goods) (st : FightState) (action : String) :
    FightState × Bool :=
  let part := action2part action
  let item_id := dictGet st.equipped part
  if item_id = "" then (st, false)
  else if ((goods item_id).bind (fun e => e.breakable)).getD true = false then
    (st, false)
  else
    ({st with equipped := st.equipped.filter (fun p => p.1 != part)}, true)

/-- Investigator.py `InvestigatorService.get_armor` composed with the
`int(...)` conversion at its Fight.py call sites: the armor value of the
item equipped in the `"防具"` slot (`"0"`, i.e. `0`, when the slot is
empty or the entry lacks the field; the catalog stores the number as a
string, modelled directly as its integer value). -/
def get_armor (goods : Goods) (st : FightState) : Int :=
  let item_id := dictGet st.equipped "防具"
  if item_id = "" then 0
  else ((goods item_id).bind (fun e => e.armor)).getD 0

/-- The monster-side data a combat action reads (from the external
monster catalog): the armor field used by `damage_to_mon` and the three
damage-tier narration strings returned by `_apply_damage_to_monster`. -/
structure MonsterInfo where
  armor : Int
  high : String
  low : String
  normal : String
deriving Repr, DecidableEq

/-- One named attack from the monster catalog.  `monster.get_action` picks
one of them with `random.choice`; which one is the environment's choice
and enters as a parameter.  `ex` is `monster_action.get("ex", 0)`. -/
structure MonsterAction where
  skill : ℕ
  damage : String
  ex : Int
  counterattack : String
  counter_succ : String
  counter_false : String
  attack : String
  attack_succ : String
  attack_false : String
deriving Repr, DecidableEq

/-- Fight.py `CombatSystem._get_reply_text`:
`reply_texts.get(key, f"[{key}]")` over the external reply catalog. -/
def get_reply_text (reply : String → Option String) (key : String) : String :=
  (reply key).getD ("[" ++ key ++ "]")

/-- Shape of the value one player action returns: the message tuple
(entries may be `None`; the trailing `_end_turn()` entry is outside the
embedded fragment), the bare `()` of a failed validation / unknown
action, or — for the `"换弹"` dispatch entry — the un-invoked bound
method that the handler lambda returns. -/
inductive ActionResult where
  | messages (msgs : List (Option String))
  | empty
  | boundMethod
deriving Repr, DecidableEq

/-! ## Fight.py — damage application and critical failures -/

/-- Fight.py `CombatSystem._apply_damage_to_player`: subtract the damage
from the player's hit-point record and pick the damage-tier reply (the
float test `current_player_hp / 2 < damage` on integers is exactly
`current_player_hp < 2 * damage`, halves of these integers being exact
doubles). -/
def apply_damage_to_player (reply : String → Option String) (st : FightState)
    (damage : Int) : FightState × String :=
  ({st with inv_hp := st.inv_hp - damage},
    if st.inv_hp < 2 * damage then get_reply_text reply "高伤害"
    else if damage < 2 then get_reply_text reply "低伤害"
    else get_reply_text reply "正常伤害")

/-- Modelled from the spec: `Monster.damage_to_mon` is called by
Fight.py `_apply_damage_to_monster` but is missing from src/ —
`Monster.py` there is a refactor that no longer defines it.  Per the
spec, "player-damage-to-monster uses the monster's own armor field" and
"Armor mitigation never drives damage below 0": the amount that lands is
the computed damage less the monster's armor, floored at 0. -/
def damage_to_mon (mon_armor : Int) (damage : Int) : Int :=
  max 0 (damage - mon_armor)

/-- Fight.py `CombatSystem._apply_damage_to_monster`: decrease the
monster's hit-point record by `monster.damage_to_mon(damage)` and pick
the tier reply (float halving as in `apply_damage_to_player`). -/
def apply_damage_to_monster (mon : MonsterInfo) (st : FightState)
    (damage : Int) : FightState × String :=
  let actual_damage := damage_to_mon mon.armor damage
  ({st with mon_hp := st.mon_hp - actual_damage},
    if st.mon_hp < 2 * actual_damage then mon.high
    else if actual_damage < 2 then mon.low
    else mon.normal)

/-- Fight.py `CombatSystem._handle_critical_failure(equipment)`: any item
other than the starting knife yields only a reply text; the knife
(`"弹簧折刀"`) makes the wielder roll and take `1d4` self-damage.  In
BOTH branches the function then calls
`investigator_service.break_equipped_item(qq, current_action)`
unconditionally — whether the item is actually removed is decided inside
`break_equipped_item` by the catalog's `breakable` flag — and re-derives
the available actions (presentation only). -/
def handle_critical_failure (goods : Goods) (reply : String → Option String)
    (current_action : String) (equipment : String) (st : FightState) :
    Except String (FightState × String) := do
  let stp ←
    if equipment ≠ "弹簧折刀" then
      pure (st, pyReplace (get_reply_text reply "反击大失败") "$装备" equipment)
    else do
      let d ← roll_dice "1d4" false st.rng
      let (detail, dmg, rng') := d
      let (st1, _) := apply_damage_to_player reply {st with rng := rng'} dmg
      pure (st1,
        pyReplace (pyReplace (get_reply_text reply "大失败_初始") "$骰子" "1d4") "$伤害" detail)
  let (st1, player_text) := stp
  .ok ((break_equipped_item goods st1 current_action).1, player_text)

/-! ## Fight.py — melee attack -/

/-- The damage-bonus concatenation shared by `_handle_successful_attack`
and `_handle_successful_counter`: the weapon's damage expression with the
player's `db` appended as `+db` (or directly when `db` starts with `-`),
skipped when `db` is `"0"`. -/
def melee_damage (goods : Goods) (player_db : String)
    (equipped_item : String) : String :=
  let damage0 := get_equipment_damage goods equipped_item
  if player_db ≠ "0" then
    if strStartsWith player_db "-" then damage0 ++ player_db
    else damage0 ++ "+" ++ player_db
  else damage0

/-- Fight.py `CombatSystem._handle_successful_attack`. -/
def handle_successful_attack (goods : Goods) (reply : String → Option String)
    (player_db : String) (mon : MonsterInfo) (equipped_item : String)
    (level1 : Int) (action_reply monster_reply roll_description : String)
    (st : FightState) : Except String (FightState × ActionResult) := do
  let has_penetration := has_penetration_effect goods equipped_item
  let equipment_name := get_equipment_name goods equipped_item
  let damage := melee_damage goods player_db equipped_item
  let de ← calculate_damage_expression damage level1
    (if has_penetration then 1 else 0) 0 st.rng
  let (detail, dmg, rng') := de
  let reply_template :=
    if level1 > SuccessLevel.HARD_SUCCESS then get_reply_text reply "格斗大成功"
    else get_reply_text reply "格斗成功"
  let player_text :=
    pyReplace (pyReplace (pyReplace reply_template "$装备" equipment_name)
      "$伤害" (toString dmg)) "$骰子" detail
  let (st1, monster_text) := apply_damage_to_monster mon {st with rng := rng'} dmg
  .ok (st1, .messages [some action_reply, some monster_reply,
    some roll_description, some player_text, some monster_text])

/-- Fight.py `CombatSystem._handle_failed_attack`. -/
def handle_failed_attack (goods : Goods) (reply : String → Option String)
    (current_action equipment : String) (mon_action : MonsterAction)
    (level1 level2 : Int) (action_reply roll_description : String)
    (st : FightState) : Except String (FightState × ActionResult) := do
  if level1 < 1 ∧ level2 < 1 then
    let player_text :=
      pyReplace (get_reply_text reply (current_action ++ "失败")) "$装备" equipment
    .ok (st, .messages [some action_reply, some mon_action.counterattack,
      some roll_description, some player_text, some mon_action.counter_false])
  else do
    let armor := get_armor goods st
    let de ← calculate_damage_expression mon_action.damage 0 0 armor st.rng
    let (detail, dmg, rng') := de
    let monster_text :=
      pyReplace (pyReplace mon_action.counter_succ "$伤害" (toString dmg)) "$骰子" detail
    let (st1, player_text) := apply_damage_to_player reply {st with rng := rng'} dmg
    .ok (st1, .messages [some action_reply, some mon_action.counterattack,
      some roll_description, some player_text, some monster_text])

/-- Fight.py `CombatSystem._melee_attack` (the trailing `_end_turn()` is
outside the embedded fragment).  The equipped-item guard precedes every
roll and every mutation.  `ConfrontationRoll(player_skill, monster_skill)`
is two d100 draws; `get_result("反击")` is the counter-mode
confrontation. -/
def melee_attack (goods : Goods) (reply : String → Option String)
    (player_info : String → Option ℕ) (player_db : String)
    (player_name mon_name : String) (mon : MonsterInfo)
    (mon_action : MonsterAction) (st : FightState) :
    Except String (FightState × ActionResult) := do
  let current_action := "格斗"
  let equipped_item := get_equipped_id st current_action
  if equipped_item = "" then
    .ok (st, .empty)
  else
    let action_reply := get_equipment_reply goods equipped_item
    let player_skill := (player_info current_action).getD 25
    let monster_skill := mon_action.skill
    let (dice1, rng1) := roll_d100 st.rng
    let level1 := calculate_success_level player_skill dice1
    let (dice2, rng2) := roll_d100 rng1
    let level2 := calculate_success_level monster_skill dice2
    let player_wins :=
      check_confrontation player_skill monster_skill level1 level2 "反击"
    let player_roll_desc := player_name ++ "进行格斗鉴定," ++ toString dice1 ++
      "/" ++ toString player_skill ++ "【" ++ get_success_description level1 ++ "】"
    let monster_roll_desc := mon_name ++ "进行反击鉴定," ++ toString dice2 ++
      "/" ++ toString monster_skill ++ "【" ++ get_success_description level2 ++ "】"
    let roll_description := player_roll_desc ++ "\n" ++ monster_roll_desc
    let equipment_name := get_equipment_name goods equipped_item
    let st1 : FightState := {st with rng := rng2}
    do
      let sd ←
        if level1 = SuccessLevel.CRITICAL_FAILURE then do
          let r ← handle_critical_failure goods reply current_action equipment_name st1
          pure (r.1, roll_description ++ "\n" ++ r.2)
        else
          pure (st1, roll_description)
      let (st2, roll_description1) := sd
      if player_wins then
        handle_successful_attack goods reply player_db mon equipped_item level1
          action_reply mon_action.counterattack roll_description1 st2
      else
        handle_failed_attack goods reply current_action equipment_name mon_action
          level1 level2 action_reply roll_description1 st2

/-- Fight.py `CombatSystem._handle_successful_counter(monster_action)`
(the player counters on the monster's turn; `self.current_action` is the
defensive action, mapping to the melee slot).  Returns the state plus
`(player_text, monster_text)`. -/
def handle_successful_counter (goods : Goods) (reply : String → Option String)
    (player_db : String) (current_action : String) (mon : MonsterInfo)
    (st : FightState) : Except String (FightState × String × String) := do
  let equipped_item := get_equipped_id st current_action
  if equipped_item = "" then
    .ok (st, "反击失败", "")
  else
    let damage := melee_damage goods player_db equipped_item
    let name := get_equipment_name goods equipped_item
    let de ← calculate_damage_expression damage 0 0 0 st.rng
    let (detail, dmg, rng') := de
    let player_text :=
      pyReplace (pyReplace (pyReplace (get_reply_text reply "反击成功") "$装备" name)
        "$伤害" (toString dmg)) "$骰子" detail
    let (st1, monster_text) := apply_damage_to_monster mon {st with rng := rng'} dmg
    .ok (st1, player_text, monster_text)

/-! ## Fight.py — ranged attacks and reload -/

/-- Fight.py `CombatSystem._single_shot` (reached from `_ranged_attack`
after the ammunition decrement; `_end_turn` excluded). -/
def single_shot (goods : Goods) (reply : String → Option String)
    (player_info : String → Option ℕ) (player_name current_action : String)
    (mon : MonsterInfo) (st : FightState) :
    Except String (FightState × ActionResult) := do
  let equipped_item := get_equipped_id st current_action
  if equipped_item = "" then
    .ok (st, .empty)
  else
    let skill_name := get_identify_skill goods equipped_item
    let player_skill := (player_info skill_name).getD 20
    let damage := get_equipment_damage goods equipped_item
    let equipment_name := get_equipment_name goods equipped_item
    let (dice, rng1) := roll_d100 st.rng
    let level := calculate_success_level player_skill dice
    let st1 : FightState := {st with rng := rng1}
    let roll_description := player_name ++ "进行" ++ skill_name ++ "鉴定," ++
      toString dice ++ "/" ++ toString player_skill ++ "【" ++
      get_success_description level ++ "】"
    if level > SuccessLevel.FAILURE then do
      let de ← calculate_damage_expression damage level 1 0 st1.rng
      let (detail, dmg, rng2) := de
      let reply_template :=
        if level > SuccessLevel.HARD_SUCCESS then get_reply_text reply "射击大成功"
        else get_reply_text reply "射击成功"
      let player_text :=
        pyReplace (pyReplace reply_template "$伤害" (toString dmg)) "$骰子" detail
      let (st2, monster_text) :=
        apply_damage_to_monster mon {st1 with rng := rng2} dmg
      .ok (st2, .messages [some (get_equipment_reply goods equipped_item),
        some roll_description, some player_text, some monster_text])
    else if level = SuccessLevel.CRITICAL_FAILURE then
      let player_text :=
        pyReplace (get_reply_text reply "射击大失败") "$装备" equipment_name
      let st2 : FightState :=
        {(break_equipped_item goods st1 current_action).1 with gun := false}
      .ok (st2, .messages [some (get_equipment_reply goods equipped_item),
        some roll_description, some player_text, none])
    else
      .ok (st1, .messages [some (get_equipment_reply goods equipped_item),
        some roll_description, some (get_reply_text reply "射击失败"), none])

/-- The `for _ in range(shot_count)` loop of Fight.py
`CombatSystem._multiple_shot`: one `PenaltyDiceRoll(player_skill)` (one
penalty die) per shot; a critical failure breaks the weapon, clears
`self.gun` and `break`s out of the loop; a level above `FAILURE` rolls
and accumulates damage.  Returns the state, the accumulated damage, the
per-shot roll descriptions (in reverse), the accumulated player text and
whether the loop was halted by a critical failure. -/
def multiple_shot_loop (goods : Goods) (reply : String → Option String)
    (player_name skill_name : String) (player_skill : ℕ)
    (damage equipment_name current_action : String) :
    ℕ → FightState → Int → List String → String →
    Except String (FightState × Int × List String × String × Bool)
  | 0, st, total, descs, text => .ok (st, total, descs, text, false)
  | n + 1, st, total, descs, text =>
    let (roll, rng1) := penalty_dice_roll player_skill st.rng
    let st1 : FightState := {st with rng := rng1}
    let desc := player_name ++ "进行" ++ skill_name ++ "鉴定,P=" ++
      toString roll.dice ++ "[惩罚骰:[" ++ toString roll.penalty_value ++ "]] " ++
      toString roll.final_result ++ "/" ++ toString player_skill ++ "【" ++
      get_success_description roll.level ++ "】"
    if roll.level = SuccessLevel.CRITICAL_FAILURE then
      let text1 := text ++
        pyReplace ((get_reply_text reply "射击大失败") ++ "\n") "$装备" equipment_name
      let st2 : FightState :=
        {(break_equipped_item goods st1 current_action).1 with gun := false}
      .ok (st2, total, desc :: descs, text1, true)
    else if roll.level > SuccessLevel.FAILURE then do
      let de ← calculate_damage_expression damage roll.level 1 0 st1.rng
      let (detail, dmg, rng2) := de
      multiple_shot_loop goods reply player_name skill_name player_skill damage
        equipment_name current_action n {st1 with rng := rng2} (total + dmg)
        (desc :: descs) (text ++ detail ++ "=" ++ toString dmg ++ "\n")
    else
      multiple_shot_loop goods reply player_name skill_name player_skill damage
        equipment_name current_action n st1 total (desc :: descs) text

/-- Fight.py `CombatSystem._multiple_shot(shot_count)` (`_end_turn`
excluded).  After the loop — broken early or not — the accumulated total
is applied to the monster. -/
def multiple_shot (goods : Goods) (reply : String → Option String)
    (player_info : String → Option ℕ) (player_name current_action : String)
    (mon : MonsterInfo) (shot_count : ℕ) (st : FightState) :
    Except String (FightState × ActionResult) := do
  let equipped_item := get_equipped_id st current_action
  if equipped_item = "" then
    .ok (st, .empty)
  else do
    let skill_name := get_identify_skill goods equipped_item
    let player_skill := (player_info skill_name).getD 20
    let damage := get_equipment_damage goods equipped_item
    let equipment_name := get_equipment_name goods equipped_item
    let res ← multiple_shot_loop goods reply player_name skill_name player_skill
      damage equipment_name current_action shot_count st 0 [] ""
    let (st1, total_damage, descs, shots_text, _) := res
    let roll_description := String.intercalate "\n" descs.reverse
    let player_text := shots_text ++ "总伤害：" ++ toString total_damage
    let (st2, monster_text) := apply_damage_to_monster mon st1 total_damage
    .ok (st2, .messages [some (get_equipment_reply goods equipped_item),
      some roll_description, some player_text, some monster_text])

/-- Fight.py `CombatSystem._ranged_attack(shot_count)`: the ammunition
guard returns the insufficient-ammunition message before any roll or
mutation; otherwise the decrement happens and the single- or multi-shot
procedure runs. -/
def ranged_attack (goods : Goods) (reply : String → Option String)
    (player_info : String → Option ℕ) (player_name current_action : String)
    (mon : MonsterInfo) (shot_count : ℕ) (st : FightState) :
    Except String (FightState × ActionResult) :=
  if st.bullet < shot_count then
    .ok (st, .messages [some ("当前剩余弹药" ++ toString st.bullet), some "无法发射"])
  else
    let st1 : FightState := {st with bullet := st.bullet - shot_count}
    if shot_count > 1 then
      multiple_shot goods reply player_info player_name current_action mon
        shot_count st1
    else
      single_shot goods reply player_info player_name current_action mon st1

/-- Fight.py `CombatSystem._change_bomb`: refill to the maximum
ammunition.  (Never reached through the action dispatch — see
`execute_player_action`.) -/
def change_bomb (st : FightState) : FightState × ActionResult :=
  ({st with bullet := st.max_bullet}, .messages [some "换弹完成"])

/-- Fight.py `CombatSystem._execute_player_action(action)`.  The handler
table maps `"换弹"` to `lambda: self._change_bomb` — the lambda body does
NOT call the method, so `handler()` returns the bound method object
itself and neither `_change_bomb` nor any state change runs.  Every other
known action's lambda does invoke its handler; an unknown action logs a
warning and returns `()`. -/
def execute_player_action (goods : Goods) (reply : String → Option String)
    (player_info : String → Option ℕ) (player_db : String)
    (player_name mon_name : String) (mon : MonsterInfo)
    (mon_action : MonsterAction) (action : String) (st : FightState) :
    Except String (FightState × ActionResult) :=
  if action = "格斗" then
    melee_attack goods reply player_info player_db player_name mon_name mon
      mon_action st
  else if action = "射击" then
    ranged_attack goods reply player_info player_name "射击" mon 1 st
  else if action = "二连射" then
    ranged_attack goods reply player_info player_name "二连射" mon 2 st
  else if action = "三连射" then
    ranged_attack goods reply player_info player_name "三连射" mon 3 st
  else if action = "换弹" then
    .ok (st, .boundMethod)
  else
    .ok (st, .empty)

/-! ## Concrete fixtures for the closed theorems

A two-item catalog (the starting knife, id 101, whose `breakable: false`
entry is modelled from the spec — the knife is not lost on a critical
failure — and a revolver), an empty reply catalog, a skill table, a
monster and a session state. -/

def demoGoods : Goods := fun id =>
  if id = "101" then
    some ⟨some "弹簧折刀", some "1d4", none, none, some false, none, some "折刀描述"⟩
  else if id = "301" then
    some ⟨some "左轮手枪", some "1d10", some "手枪", none, none, none, some "手枪描述"⟩
  else none

def demoReply : String → Option String := fun _ => none

def demoInfo : String → Option ℕ := fun s => if s = "手枪" then some 50 else none

def demoMonster : MonsterInfo := ⟨2, "高", "低", "正常"⟩

def demoAction : MonsterAction :=
  ⟨40, "1d3", 0, "反击词", "反击成功词", "反击失败词", "攻击词", "攻击成功词", "攻击失败词"⟩

def demoState : FightState :=
  ⟨[("远程", "301"), ("近战", "101")], 10, 20, 3, 6, true, [29, 0, 4, 97, 0, 9, 9]⟩

/-- A state whose ranged slot is empty (the gun broke earlier in the
fight) while the ammunition counter still exists. -/
def noGunState : FightState := ⟨[("近战", "101")], 10, 20, 5, 6, false, [1, 2, 3]⟩

/-! ## Claim C1 — success-level thresholds -/

lemma ratio_gt_one_iff (s r : ℕ) (hs : 1 ≤ s) :
    ((r : ℚ) / (s : ℚ) > 1) ↔ s < r := by
  have hs0 : (0 : ℚ) < (s : ℚ) := by exact_mod_cast hs
  rw [gt_iff_lt, one_lt_div hs0]
  exact Nat.cast_lt

lemma ratio_gt_half_iff (s r : ℕ) (hs : 1 ≤ s) :
    ((r : ℚ) / (s : ℚ) > 1 / 2) ↔ s < 2 * r := by
  have hs0 : (0 : ℚ) < (s : ℚ) := by exact_mod_cast hs
  rw [gt_iff_lt, div_lt_div_iff₀ two_pos hs0, one_mul]
  have h2 : ((r : ℚ) * 2 = ((2 * r : ℕ) : ℚ)) := by push_cast; ring
  rw [h2]
  exact Nat.cast_lt

lemma ratio_gt_fifth_iff (s r : ℕ) (hs : 1 ≤ s) :
    ((r : ℚ) / (s : ℚ) > 1 / 5) ↔ s < 5 * r := by
  have hs0 : (0 : ℚ) < (s : ℚ) := by exact_mod_cast hs
  rw [gt_iff_lt, div_lt_div_iff₀ (by norm_num : (0 : ℚ) < 5) hs0, one_mul]
  have h5 : ((r : ℚ) * 5 = ((5 * r : ℕ) : ℚ)) := by push_cast; ring
  rw [h5]
  exact Nat.cast_lt

/-- The integer characterization of the success-level thresholds: the
strict rational comparisons `r/s > 1`, `> 1/2`, `> 1/5` are the integer
conditions `s < r`, `s < 2r`, `s < 5r`. -/
lemma calculate_success_level_spec (s r : ℕ) (hs : 1 ≤ s) :
    calculate_success_level s r =
      if 95 < r then SuccessLevel.CRITICAL_FAILURE
      else if r < 6 then SuccessLevel.CRITICAL_SUCCESS
      else if s < r then SuccessLevel.FAILURE
      else if s < 2 * r then SuccessLevel.SUCCESS
      else if s < 5 * r then SuccessLevel.HARD_SUCCESS
      else SuccessLevel.EXTREME_SUCCESS := by
  have e1 := ratio_gt_one_iff s r hs
  have e2 := ratio_gt_half_iff s r hs
  have e3 := ratio_gt_fifth_iff s r hs
  simp only [calculate_success_level, gt_iff_lt] at *
  simp only [e1, e2, e3]

lemma success_level_50_30 : calculate_success_level 50 30 = SuccessLevel.SUCCESS := by
  rw [calculate_success_level_spec 50 30 (by norm_num)]
  decide

lemma success_level_50_98 :
    calculate_success_level 50 98 = SuccessLevel.CRITICAL_FAILURE := by
  rw [calculate_success_level_spec 50 98 (by norm_num)]
  decide

/-- C1: for every skill `s ≥ 1` and roll `r ∈ 1..100` the check resolver
follows the exact precedence roll > 95 → CriticalFailure, roll < 6 →
CriticalSuccess, then the strict ratio thresholds (`r/s > 1`, `> 0.5`,
`> 0.2` being the integer conditions `s < r`, `s < 2r`, `s < 5r`); the
boundaries are exact (96 → CriticalFailure, 95 falls to the ratio rule,
5 → CriticalSuccess, 6 falls to the ratio rule) and skill 50 against
roll 10 (ratio exactly 0.2) is ExtremeSuccess. -/
theorem claim_C1 :
    (∀ s r : ℕ, 1 ≤ s → 1 ≤ r → r ≤ 100 →
      calculate_success_level s r =
        if 95 < r then SuccessLevel.CRITICAL_FAILURE
        else if r < 6 then SuccessLevel.CRITICAL_SUCCESS
        else if s < r then SuccessLevel.FAILURE
        else if s < 2 * r then SuccessLevel.SUCCESS
        else if s < 5 * r then SuccessLevel.HARD_SUCCESS
        else SuccessLevel.EXTREME_SUCCESS) ∧
    (∀ s : ℕ, 1 ≤ s → calculate_success_level s 96 = SuccessLevel.CRITICAL_FAILURE) ∧
    (∀ s : ℕ, 1 ≤ s → calculate_success_level s 5 = SuccessLevel.CRITICAL_SUCCESS) ∧
    (∀ s : ℕ, 1 ≤ s → calculate_success_level s 95 ≠ SuccessLevel.CRITICAL_FAILURE ∧
      calculate_success_level s 6 ≠ SuccessLevel.CRITICAL_SUCCESS) ∧
    calculate_success_level 50 10 = SuccessLevel.EXTREME_SUCCESS := by
  refine ⟨?_, ?_, ?_, ?_, ?_⟩
  · intro s r hs _ _
    exact calculate_success_level_spec s r hs
  · intro s _
    rfl
  · intro s _
    rfl
  · intro s hs
    rw [calculate_success_level_spec s 95 hs, calculate_success_level_spec s 6 hs]
    constructor
    · rw [if_neg (by norm_num), if_neg (by norm_num)]
      split_ifs <;> decide
    · rw [if_neg (by norm_num), if_neg (by norm_num)]
      split_ifs <;> decide
  · rw [calculate_success_level_spec 50 10 (by norm_num)]
    decide

/-- Witness for C1 at skill 100, roll 95: the boundary roll 95 falls to
the ratio rule and yields Success. -/
theorem claim_C1_witness :
    calculate_success_level 100 95 = SuccessLevel.SUCCESS := by
  have h := claim_C1.1 100 95 (by norm_num) (by norm_num) (by norm_num)
  simpa using h

/-! ## Claim C2 — confrontation modes -/

/-- C2: resolving a confrontation in favour of side A follows the mode
table — `"闪避"` (evade): strictly greater level; `"反击"` (counter):
level above Failure and at least the opponent's; any other mode: greater
level, or equal levels with `skillA ≥ skillB`. -/
theorem claim_C2 (l1 l2 : Int) (s1 s2 : ℕ) (mode : String) :
    (check_confrontation s1 s2 l1 l2 "闪避" = true ↔ l2 < l1) ∧
    (check_confrontation s1 s2 l1 l2 "反击" = true ↔
      (SuccessLevel.FAILURE < l1 ∧ l2 ≤ l1)) ∧
    (mode ≠ "闪避" → mode ≠ "反击" →
      (check_confrontation s1 s2 l1 l2 mode = true ↔
        (l2 < l1 ∨ (l1 = l2 ∧ s2 ≤ s1)))) := by
  refine ⟨?_, ?_, ?_⟩
  · simp [check_confrontation]
  · rw [check_confrontation, if_neg (by decide), if_pos rfl]
    simp only [SuccessLevel.FAILURE]
    by_cases h : l1 ≤ 0
    · rw [if_pos h]
      simp only [Bool.false_eq_true, false_iff]
      rintro ⟨h1, -⟩
      omega
    · rw [if_neg h]
      simp only [decide_eq_true_eq, ge_iff_le]
      omega
  · intro h1 h2
    rw [check_confrontation, if_neg h1, if_neg h2]
    by_cases hl : l1 = l2
    · rw [if_neg (not_not_intro hl)]
      simp only [decide_eq_true_eq, ge_iff_le]
      subst hl
      constructor
      · intro hs
        exact Or.inr ⟨rfl, hs⟩
      · rintro (hlt | ⟨-, hs⟩)
        · omega
        · exact hs
    · rw [if_pos hl]
      simp only [decide_eq_true_eq, gt_iff_lt]
      constructor
      · intro hlt
        exact Or.inl hlt
      · rintro (hlt | ⟨he, -⟩)
        · exact hlt
        · exact absurd he hl

/-- Witness for C2: a generic-mode (initiative) tie on levels broken in
favour of the higher raw skill. -/
theorem claim_C2_witness :
    check_confrontation 30 40 2 2 "先攻" = false := by
  have h := (claim_C2 2 2 30 40 "先攻").2.2 (by decide) (by decide)
  have hn : ¬((2 : Int) < 2 ∨ ((2 : Int) = 2 ∧ 40 ≤ 30)) := by
    rintro (h | ⟨_, h⟩) <;> omega
  cases hb : check_confrontation 30 40 2 2 "先攻"
  · rfl
  · exact absurd (h.mp hb) hn

/-! ## Claim C3 — armor application -/

/-- Evaluation of a `"1d6"` random roll on any draw stream. -/
lemma roll_dice_1d6 (rng : List ℕ) :
    roll_dice "1d6" false rng =
      .ok (removeSpaces (toString (1 + ((rng.headD 0 : ℕ) : Int) % 6)),
        1 + ((rng.headD 0 : ℕ) : Int) % 6, rng.tail) := by
  cases rng <;>
    simp [roll_dice, roll_single_dice, parse_dice_term, splitParts, removeChar,
      pyIsDigit, stripSpaces, splitOnChar, splitOnCharAux, pyInt, digitsToNat,
      rollN, randint, drawNat, removeSpaces, String.intercalate,
      String.intercalate.go, bind, Except.bind, pure, Except.pure]

/-- Evaluation of a `"1d4"` random roll on any draw stream. -/
lemma roll_dice_1d4 (rng : List ℕ) :
    roll_dice "1d4" false rng =
      .ok (removeSpaces (toString (1 + ((rng.headD 0 : ℕ) : Int) % 4)),
        1 + ((rng.headD 0 : ℕ) : Int) % 4, rng.tail) := by
  cases rng <;>
    simp [roll_dice, roll_single_dice, parse_dice_term, splitParts, removeChar,
      pyIsDigit, stripSpaces, splitOnChar, splitOnCharAux, pyInt, digitsToNat,
      rollN, randint, drawNat, removeSpaces, String.intercalate,
      String.intercalate.go, bind, Except.bind, pure, Except.pure]

/-- C3 counterexample: damage expression `"1"` (pre-armor total 1 > 0)
with penetration (`extra_damage = 1`) against armor 3 yields 0, not the
claimed floor of 1: the armor application has no penetration floor. -/
theorem claim_C3_counterexample :
    calculate_damage_expression "1" 0 1 3 [] = .ok ("1-3", 0, []) ∧
    roll_dice "1" false [] = .ok ("1", 1, []) ∧
    ¬(1 : Int) ≤ 0 := by
  refine ⟨rfl, rfl, by norm_num⟩

/-- C3 (amended): for every damage computation with armor ≠ 0 the armor
value is subtracted from the pre-armor rolled total and the result is
floored at 0 — with or without penetration; there is no floor-at-1
penetration rule — and the trace appends `"-armor"`.  The scenario
("1d6" at CriticalSuccess with penetration against armor 3) yields
`max(0, (6 + 1d6) - 3)`, which coincides with the claimed
`max(1, (6 + 1d6) - 3)` because the doubled roll is at least 7. -/
theorem claim_C3 :
    (∀ (damage : String) (lvl extra armor : Int) (rng : List ℕ), armor ≠ 0 →
      calculate_damage_expression damage lvl extra armor rng =
        (damage_base_expression damage lvl extra rng).map
          (fun x => (x.1 ++ "-" ++ toString armor, max 0 (x.2.1 - armor), x.2.2))) ∧
    (∀ v : ℕ,
      (calculate_damage_expression "1d6" SuccessLevel.CRITICAL_SUCCESS 1 3 [v]).map
          (fun x => x.2.1) =
        .ok (max 1 (6 + (1 + (v : Int) % 6) - 3))) := by
  constructor
  · intro damage lvl extra armor rng h
    unfold calculate_damage_expression
    cases hb : damage_base_expression damage lvl extra rng with
    | error e => simp [hb, bind, Except.bind, Except.map]
    | ok x =>
      obtain ⟨e, t, r⟩ := x
      simp [hb, bind, Except.bind, Except.map, h]
  · intro v
    have h6max : roll_dice "1d6" true [v] = .ok ("6", 6, [v]) := rfl
    have h6 := roll_dice_1d6 [v]
    have hmod0 : (0 : Int) ≤ (v : Int) % 6 := Int.emod_nonneg _ (by norm_num)
    simp only [List.headD, List.tail] at h6
    simp [calculate_damage_expression, damage_base_expression, double_damage,
      h6max, h6, bind, Except.bind, Except.map, SuccessLevel.CRITICAL_SUCCESS,
      SuccessLevel.HARD_SUCCESS]
    omega

/-- Witness for C3 at damage `"2"`, armor 5: the result is the 0-floored
armor-adjusted total. -/
theorem claim_C3_witness :
    calculate_damage_expression "2" 0 0 5 [] =
      (damage_base_expression "2" 0 0 []).map
        (fun x => (x.1 ++ "-" ++ toString (5 : Int), max 0 (x.2.1 - 5), x.2.2)) :=
  claim_C3.1 "2" 0 0 5 [] (by norm_num)

/-! ## Claim C4 — multi-shot -/

/-- C4 (code evaluated at the failing input): with a ranged weapon
equipped in the `"远程"` slot (id 301) and 3 rounds of ammunition, the
double-shot action `"二连射"` deducts 2 rounds and then aborts with the
missing-equipment `()` — no penalty check is rolled (the draw stream is
untouched) — because `action2part` has no entry for `"二连射"`, so the
equipped-weapon lookup uses slot `""`.  The triple shot `"三连射"`
(which `action2part` does map) behaves as the claim describes: shot 1
(penalty roll 30/50, Success) accumulates 5 damage, shot 2 (penalty roll
98, CriticalFailure) unequips the weapon and halts, shot 3 is not
attempted (the last two draws survive), and the accumulated 5 damage is
applied to the monster through its armor 2. -/
theorem claim_C4 :
    execute_player_action demoGoods demoReply demoInfo "0" "P" "M" demoMonster
        demoAction "二连射" demoState =
      .ok (⟨[("远程", "301"), ("近战", "101")], 10, 20, 1, 6, true,
        [29, 0, 4, 97, 0, 9, 9]⟩, .empty) ∧
    dictGet demoState.equipped "远程" = "301" ∧
    action2part "二连射" = "" ∧
    execute_player_action demoGoods demoReply demoInfo "0" "P" "M" demoMonster
        demoAction "三连射" demoState =
      .ok (⟨[("近战", "101")], 10, 17, 0, 6, false, [9, 9]⟩,
        .messages [some "手枪描述",
          some "P进行手枪鉴定,P=30[惩罚骰:[0]] 30/50【成功】\nP进行手枪鉴定,P=98[惩罚骰:[0]] 98/50【大失败】",
          some "1d10=5\n[射击大失败]\n总伤害：5",
          some "正常"]) := by
  refine ⟨rfl, rfl, rfl, ?_⟩
  simp [execute_player_action, ranged_attack, multiple_shot,
    multiple_shot_loop, penalty_dice_roll, roll_d100, drawNat,
    success_level_50_30, success_level_50_98, get_equipped_id, dictGet,
    action2part, demoState, demoGoods, demoInfo, demoReply, demoMonster,
    demoAction, get_identify_skill, get_equipment_damage, get_equipment_name,
    get_equipment_reply, get_reply_text, break_equipped_item,
    apply_damage_to_monster, damage_to_mon, calculate_damage_expression,
    damage_base_expression, roll_dice, roll_single_dice, parse_dice_term,
    splitParts, removeChar,
    pyIsDigit, stripSpaces, splitOnChar, splitOnCharAux, pyInt, digitsToNat,
    rollN, randint, removeSpaces, String.intercalate, String.intercalate.go,
    bind, Except.bind, pure, Except.pure, get_success_description, pyReplace,
    pyReplaceAux, SuccessLevel.SUCCESS, SuccessLevel.CRITICAL_FAILURE,
    SuccessLevel.FAILURE, SuccessLevel.HARD_SUCCESS]
  decide

/-! ## Claim C5 — player damage to the monster nets through its armor -/

/-- C5: every successful player attack path (melee win, ranged hit,
counter) subtracts from the monster's hit-point record exactly the
computed damage reduced by the monster's own armor field (floored at 0,
per the spec-modelled `damage_to_mon`). -/
theorem claim_C5 :
    (∀ (mon : MonsterInfo) (st : FightState) (damage : Int),
      (apply_damage_to_monster mon st damage).1 =
        {st with mon_hp := st.mon_hp - max 0 (damage - mon.armor)}) ∧
    (∀ (goods : Goods) (reply : String → Option String) (player_db : String)
        (mon : MonsterInfo) (equipped_item : String) (level1 : Int)
        (a b c : String) (st : FightState) (detail : String) (dmg : Int)
        (rng1 : List ℕ),
      calculate_damage_expression (melee_damage goods player_db equipped_item)
          level1 (if has_penetration_effect goods equipped_item then 1 else 0) 0
          st.rng = .ok (detail, dmg, rng1) →
      (handle_successful_attack goods reply player_db mon equipped_item level1
          a b c st).map (fun p => p.1) =
        .ok {st with mon_hp := st.mon_hp - max 0 (dmg - mon.armor), rng := rng1}) ∧
    (∀ (goods : Goods) (reply : String → Option String)
        (player_db current_action : String) (mon : MonsterInfo)
        (st : FightState) (detail : String) (dmg : Int) (rng1 : List ℕ),
      get_equipped_id st current_action ≠ "" →
      calculate_damage_expression
          (melee_damage goods player_db (get_equipped_id st current_action))
          0 0 0 st.rng = .ok (detail, dmg, rng1) →
      (handle_successful_counter goods reply player_db current_action mon
          st).map (fun p => p.1) =
        .ok {st with mon_hp := st.mon_hp - max 0 (dmg - mon.armor), rng := rng1}) := by
  refine ⟨?_, ?_, ?_⟩
  · intro mon st damage
    rfl
  · intro goods reply player_db mon equipped_item level1 a b c st detail dmg rng1 h
    simp only [handle_successful_attack, h, bind, Except.bind, Except.map,
      apply_damage_to_monster, damage_to_mon]
  · intro goods reply player_db current_action mon st detail dmg rng1 hne h
    simp only [handle_successful_counter, bind, Except.bind, Except.map,
      apply_damage_to_monster, damage_to_mon, if_neg hne, h]

/-- Witness for C5: a concrete melee win (revolver, level Success, damage
roll 5) against monster armor 2 lands 3 points. -/
theorem claim_C5_witness :
    (handle_successful_attack demoGoods demoReply "0" demoMonster "301" 1
        "a" "b" "c" ⟨[("远程", "301"), ("近战", "101")], 10, 20, 3, 6, true,
          [4]⟩).map (fun p => p.1) =
      .ok {(⟨[("远程", "301"), ("近战", "101")], 10, 20, 3, 6, true,
          [4]⟩ : FightState) with mon_hp := 20 - max 0 (5 - 2), rng := []} :=
  claim_C5.2.1 demoGoods demoReply "0" demoMonster "301" 1 "a" "b" "c"
    ⟨[("远程", "301"), ("近战", "101")], 10, 20, 3, 6, true, [4]⟩
    "1d10" 5 [] rfl

/-! ## Claim C6 — insufficient ammunition -/

/-- C6: whenever the requested shot count exceeds the current
ammunition, the ranged attack returns the insufficient-ammunition
message with the state — ammunition included — unchanged and no draw
consumed. -/
theorem claim_C6 (goods : Goods) (reply : String → Option String)
    (player_info : String → Option ℕ) (player_name current_action : String)
    (mon : MonsterInfo) (shot_count : ℕ) (st : FightState)
    (h : st.bullet < shot_count) :
    ranged_attack goods reply player_info player_name current_action mon
        shot_count st =
      .ok (st, .messages [some ("当前剩余弹药" ++ toString st.bullet),
        some "无法发射"]) := by
  unfold ranged_attack
  rw [if_pos h]

/-- Witness for C6: 2 rounds left, 3 requested. -/
theorem claim_C6_witness :
    ranged_attack demoGoods demoReply demoInfo "P" "三连射" demoMonster 3
        (⟨[("远程", "301"), ("近战", "101")], 10, 20, 2, 6, true, [1, 2]⟩ :
          FightState) =
      .ok (⟨[("远程", "301"), ("近战", "101")], 10, 20, 2, 6, true, [1, 2]⟩,
        .messages [some ("当前剩余弹药" ++ toString (2 : Int)), some "无法发射"]) :=
  claim_C6 demoGoods demoReply demoInfo "P" "三连射" demoMonster 3
    ⟨[("远程", "301"), ("近战", "101")], 10, 20, 2, 6, true, [1, 2]⟩
    (by norm_num)

/-! ## Claim C7 — empty weapon slot -/

lemma melee_attack_no_weapon (goods : Goods) (reply : String → Option String)
    (player_info : String → Option ℕ) (player_db player_name mon_name : String)
    (mon : MonsterInfo) (mon_action : MonsterAction) (st : FightState)
    (h : get_equipped_id st "格斗" = "") :
    melee_attack goods reply player_info player_db player_name mon_name mon
        mon_action st = .ok (st, .empty) := by
  simp only [melee_attack, h, reduceIte]

lemma single_shot_no_weapon (goods : Goods) (reply : String → Option String)
    (player_info : String → Option ℕ) (player_name current_action : String)
    (mon : MonsterInfo) (st : FightState)
    (h : get_equipped_id st current_action = "") :
    single_shot goods reply player_info player_name current_action mon st =
      .ok (st, .empty) := by
  simp only [single_shot, h, reduceIte]

lemma multiple_shot_no_weapon (goods : Goods) (reply : String → Option String)
    (player_info : String → Option ℕ) (player_name current_action : String)
    (mon : MonsterInfo) (shot_count : ℕ) (st : FightState)
    (h : get_equipped_id st current_action = "") :
    multiple_shot goods reply player_info player_name current_action mon
        shot_count st = .ok (st, .empty) := by
  simp only [multiple_shot, h, reduceIte]

/-- C7 counterexample: a ranged attack with the ranged slot empty and 5
rounds recorded still decrements the ammunition (5 → 4) before the
missing-equipment check aborts it — the failed call does mutate
session state. -/
theorem claim_C7_counterexample :
    ranged_attack demoGoods demoReply demoInfo "P" "射击" demoMonster 1
        noGunState = .ok ({noGunState with bullet := 4}, .empty) ∧
    ({noGunState with bullet := 4} : FightState) ≠ noGunState := by
  refine ⟨rfl, by decide⟩

/-- C7 (amended): for melee and for the shot procedures themselves the
empty-slot check precedes every roll and mutation (the state is returned
untouched), but a ranged attack decrements the ammunition counter by the
shot count before that check runs, so a ranged attack against an empty
weapon slot changes the ammunition — and nothing else. -/
theorem claim_C7 :
    (∀ (goods : Goods) (reply : String → Option String)
        (player_info : String → Option ℕ)
        (player_db player_name mon_name : String) (mon : MonsterInfo)
        (mon_action : MonsterAction) (st : FightState),
      get_equipped_id st "格斗" = "" →
      melee_attack goods reply player_info player_db player_name mon_name mon
        mon_action st = .ok (st, .empty)) ∧
    (∀ (goods : Goods) (reply : String → Option String)
        (player_info : String → Option ℕ) (player_name current_action : String)
        (mon : MonsterInfo) (st : FightState),
      get_equipped_id st current_action = "" →
      single_shot goods reply player_info player_name current_action mon st =
        .ok (st, .empty)) ∧
    (∀ (goods : Goods) (reply : String → Option String)
        (player_info : String → Option ℕ) (player_name current_action : String)
        (mon : MonsterInfo) (shot_count : ℕ) (st : FightState),
      get_equipped_id st current_action = "" →
      multiple_shot goods reply player_info player_name current_action mon
        shot_count st = .ok (st, .empty)) ∧
    (∀ (goods : Goods) (reply : String → Option String)
        (player_info : String → Option ℕ) (player_name current_action : String)
        (mon : MonsterInfo) (shot_count : ℕ) (st : FightState),
      (shot_count : Int) ≤ st.bullet →
      get_equipped_id st current_action = "" →
      ranged_attack goods reply player_info player_name current_action mon
        shot_count st = .ok ({st with bullet := st.bullet - shot_count}, .empty)) := by
  refine ⟨melee_attack_no_weapon, single_shot_no_weapon, multiple_shot_no_weapon, ?_⟩
  intro goods reply player_info player_name current_action mon shot_count st hbul hemp
  unfold ranged_attack
  rw [if_neg (not_lt.mpr hbul)]
  by_cases hc : shot_count > 1
  · rw [if_pos hc]
    exact multiple_shot_no_weapon goods reply player_info player_name
      current_action mon shot_count {st with bullet := st.bullet - shot_count} hemp
  · rw [if_neg hc]
    exact single_shot_no_weapon goods reply player_info player_name
      current_action mon {st with bullet := st.bullet - shot_count} hemp

/-- Witness for C7: the ranged case at `noGunState` with one shot. -/
theorem claim_C7_witness :
    ranged_attack demoGoods demoReply demoInfo "P" "三连射" demoMonster 3
        noGunState = .ok ({noGunState with bullet := 5 - 3}, .empty) :=
  claim_C7.2.2.2 demoGoods demoReply demoInfo "P" "三连射" demoMonster 3
    noGunState (by norm_num [noGunState]) rfl

/-! ## Claim C8 — reload -/

/-- C8 (code evaluated at the failing input): the action table maps
`"换弹"` to `lambda: self._change_bomb`, so executing the reload action
returns the un-invoked bound method and leaves the ammunition counter at
0 — while the `_change_bomb` method itself, had it been called, would
refill it to the maximum 6. -/
theorem claim_C8 :
    execute_player_action demoGoods demoReply demoInfo "0" "P" "M" demoMonster
        demoAction "换弹"
        (⟨[("远程", "301"), ("近战", "101")], 10, 20, 0, 6, true, [1]⟩ :
          FightState) =
      .ok (⟨[("远程", "301"), ("近战", "101")], 10, 20, 0, 6, true, [1]⟩,
        .boundMethod) ∧
    change_bomb ⟨[("远程", "301"), ("近战", "101")], 10, 20, 0, 6, true, [1]⟩ =
      (⟨[("远程", "301"), ("近战", "101")], 10, 20, 6, 6, true, [1]⟩,
        .messages [some "换弹完成"]) := by
  exact ⟨rfl, rfl⟩

/-! ## Claim C9 — critical failure breaks the weapon, knife excepted -/

/-- C9 (with the goods catalog modelled from the spec: the starting knife
— item 101, `"弹簧折刀"` — is the one unbreakable item, all other
equipment breakable): on the attacker's critical failure the equipped
item of the current action is removed, except that when the equipped item
is the knife the wielder instead takes a 1d4 self-damage roll (one draw,
value in 1..4) and keeps the weapon. -/
theorem claim_C9 (goods : Goods) (reply : String → Option String)
    (current_action : String) (st : FightState)
    (hbr : ∀ i, ((goods i).bind (fun e => e.breakable)).getD true =
      decide (i ≠ "101"))
    (hnm : ∀ i, get_equipment_name goods i = "弹簧折刀" ↔ i = "101")
    (hne : dictGet st.equipped (action2part current_action) ≠ "") :
    (get_equipment_name goods (dictGet st.equipped (action2part current_action)) ≠
        "弹簧折刀" →
      handle_critical_failure goods reply current_action
          (get_equipment_name goods
            (dictGet st.equipped (action2part current_action))) st =
        .ok ({st with equipped :=
            st.equipped.filter (fun p => p.1 != action2part current_action)},
          pyReplace (get_reply_text reply "反击大失败") "$装备"
            (get_equipment_name goods
              (dictGet st.equipped (action2part current_action))))) ∧
    (get_equipment_name goods (dictGet st.equipped (action2part current_action)) =
        "弹簧折刀" →
      1 ≤ 1 + ((st.rng.headD 0 : ℕ) : Int) % 4 ∧
      1 + ((st.rng.headD 0 : ℕ) : Int) % 4 ≤ 4 ∧
      handle_critical_failure goods reply current_action
          (get_equipment_name goods
            (dictGet st.equipped (action2part current_action))) st =
        .ok ({st with
            inv_hp := st.inv_hp - (1 + ((st.rng.headD 0 : ℕ) : Int) % 4),
            rng := st.rng.tail},
          pyReplace (pyReplace (get_reply_text reply "大失败_初始") "$骰子" "1d4")
            "$伤害" (removeSpaces (toString (1 + ((st.rng.headD 0 : ℕ) : Int) % 4))))) := by
  constructor
  · intro hknife
    have hid : dictGet st.equipped (action2part current_action) ≠ "101" := by
      intro hcon
      exact hknife ((hnm _).mpr hcon)
    have hbr1 := hbr (dictGet st.equipped (action2part current_action))
    rw [decide_eq_true (by exact hid)] at hbr1
    simp only [handle_critical_failure, if_pos hknife, bind, Except.bind, pure,
      Except.pure, break_equipped_item, if_neg hne, hbr1]
    simp
  · intro hknife
    refine ⟨?_, ?_, ?_⟩
    · have := Int.emod_nonneg ((st.rng.headD 0 : ℕ) : Int) (by norm_num : (4 : Int) ≠ 0)
      omega
    · have := Int.emod_lt_of_pos ((st.rng.headD 0 : ℕ) : Int) (by norm_num : (0 : Int) < 4)
      omega
    · have hid : dictGet st.equipped (action2part current_action) = "101" :=
        (hnm _).mp hknife
      have hbr1 := hbr "101"
      rw [decide_eq_false (by simp)] at hbr1
      rw [hid] at hknife ⊢
      rw [hknife]
      simp only [handle_critical_failure, roll_dice_1d4, bind, Except.bind, pure,
        Except.pure, apply_damage_to_player, break_equipped_item, hid, hbr1]
      simp

/-- Witness for C9: the knife at a concrete state — 1d4 self-damage of 2
(draw 1), weapon kept. -/
theorem claim_C9_witness :
    handle_critical_failure demoGoods demoReply "格斗"
        (get_equipment_name demoGoods
          (dictGet (⟨[("近战", "101")], 10, 20, 3, 6, true, [1]⟩ : FightState).equipped
            (action2part "格斗")))
        ⟨[("近战", "101")], 10, 20, 3, 6, true, [1]⟩ =
      .ok (⟨[("近战", "101")], 8, 20, 3, 6, true, []⟩,
        pyReplace (pyReplace (get_reply_text demoReply "大失败_初始") "$骰子" "1d4")
          "$伤害" "2") := by
  have h := (claim_C9 demoGoods demoReply "格斗"
    ⟨[("近战", "101")], 10, 20, 3, 6, true, [1]⟩ ?_ ?_ (by decide)).2 (by decide)
  · exact h.2.2
  · intro i
    by_cases h1 : i = "101"
    · simp [demoGoods, h1]
    · by_cases h2 : i = "301"
      · simp [demoGoods, h1, h2]
      · simp [demoGoods, h1, h2]
  · intro i
    by_cases h1 : i = "101"
    · simp [demoGoods, get_equipment_name, h1]
    · by_cases h2 : i = "301"
      · simp [demoGoods, get_equipment_name, h1, h2]
      · simp [demoGoods, get_equipment_name, h1, h2]

/-! ## Claim C10 — when rolling fails -/

/-- Whether an `Except` computation succeeded. -/
def exceptIsOk {α : Type} : Except String α → Bool
  | .ok _ => true
  | .error _ => false

/-- Success condition of one random-mode term (the observer for the
amended C10): the term is a Python integer literal, or an `NdM` pattern
whose pieces parse as Python integers with `M ≥ 1` — or with `N ≤ 0`, in
which case no die is rolled and the term contributes an empty sum. -/
def term_ok (part0 : List Char) : Bool :=
  let part := stripSpaces part0
  if part.contains 'd' then
    match parse_dice_term part with
    | .ok cs => decide (cs.1 ≤ 0) || decide (1 ≤ cs.2)
    | .error _ => false
  else exceptIsOk (pyInt part)

/-- Success condition of `roll_dice` in random mode: in the
digit-shortcut case the whole string must parse as one integer;
otherwise with a single part that part must be a valid term, and with
several parts every non-operator part must be. -/
def roll_dice_ok (dice_expression : String) : Bool :=
  let chars := dice_expression.data
  if pyIsDigit (removeChar ' ' (removeChar '-' (removeChar '+' chars))) then
    exceptIsOk (pyInt chars)
  else
    let parts := splitParts (removeChar ' ' chars) []
    if parts.length = 1 then term_ok (parts.headD [])
    else parts.all (fun p => p = ['+'] || p = ['-'] || term_ok p)

lemma rollN_isOk (sides : Int) (n : ℕ) (rng : List ℕ) :
    exceptIsOk (rollN sides n rng) = (decide (n = 0) || decide (1 ≤ sides)) := by
  induction n generalizing rng with
  | zero => simp [rollN, exceptIsOk]
  | succ k ih =>
    by_cases h : sides < 1
    · have hn : ¬(1 : Int) ≤ sides := by omega
      simp [rollN, randint, if_pos h, bind, Except.bind, exceptIsOk, hn]
    · have hs : (1 : Int) ≤ sides := by omega
      cases rng with
      | nil =>
        simp only [rollN, randint, if_neg h, bind, Except.bind, drawNat]
        cases hk : rollN sides k [] with
        | error e =>
          have hih := ih []
          rw [hk] at hih
          simp [exceptIsOk, hs] at hih
        | ok x => simp [exceptIsOk, hk, hs]
      | cons v t =>
        simp only [rollN, randint, if_neg h, bind, Except.bind, drawNat]
        cases hk : rollN sides k t with
        | error e =>
          have hih := ih t
          rw [hk] at hih
          simp [exceptIsOk, hs] at hih
        | ok x => simp [exceptIsOk, hk, hs]

lemma exceptIsOk_bind {α β : Type} (x : Except String α)
    (f : α → Except String β) (hf : ∀ a, exceptIsOk (f a) = true) :
    exceptIsOk (x >>= f) = exceptIsOk x := by
  cases x with
  | error e => rfl
  | ok a =>
    simp only [bind, Except.bind, exceptIsOk]
    exact hf a

lemma roll_single_dice_isOk (p : List Char) (rng : List ℕ) :
    exceptIsOk (roll_single_dice false p rng) = term_ok p := by
  unfold roll_single_dice term_ok
  by_cases hd : (stripSpaces p).contains 'd'
  · simp only [if_pos hd]
    cases hp : parse_dice_term (stripSpaces p) with
    | error e => simp [bind, Except.bind, exceptIsOk, hp]
    | ok cs =>
      obtain ⟨count, sides⟩ := cs
      have hn := rollN_isOk sides count.toNat rng
      cases hr : rollN sides count.toNat rng with
      | error e =>
        rw [hr] at hn
        simp only [exceptIsOk] at hn
        have hn2 := Bool.or_eq_false_iff.mp hn.symm
        have h0 : ¬count ≤ 0 := by
          intro hc
          have := hn2.1
          simp [Int.toNat_eq_zero.mpr hc] at this
        have h1 : ¬(1 : Int) ≤ sides := by
          intro hs
          have := hn2.2
          simp [hs] at this
        simp [bind, Except.bind, exceptIsOk, hp, hr, h0, h1]
      | ok x =>
        rw [hr] at hn
        simp only [exceptIsOk] at hn
        have : (decide (count ≤ 0) || decide (1 ≤ sides)) = true := by
          rcases Bool.or_eq_true_iff.mp hn.symm with h | h
          · simp only [decide_eq_true_eq] at h
            simp [Int.toNat_eq_zero.mp h]
          · simp [decide_eq_true_eq.mp h]
        simp [bind, Except.bind, pure, Except.pure, exceptIsOk, hp, hr, this]
  · simp only [if_neg hd]
    cases hi : pyInt (stripSpaces p) with
    | error e => simp [bind, Except.bind, exceptIsOk, hi]
    | ok v => simp [bind, Except.bind, exceptIsOk, hi]

lemma rollParts_isOk (parts : List (List Char)) (op : Char) (total : Int)
    (details : List String) (rng : List ℕ) :
    exceptIsOk (rollParts false parts op total details rng) =
      parts.all (fun p => p = ['+'] || p = ['-'] || term_ok p) := by
  induction parts generalizing op total details rng with
  | nil => simp [rollParts, exceptIsOk]
  | cons p ps ih =>
    by_cases h1 : p = ['+']
    · simp [rollParts, h1, ih]
    · by_cases h2 : p = ['-']
      · simp [rollParts, h1, h2, ih]
      · have hto := roll_single_dice_isOk p rng
        cases hr : roll_single_dice false p rng with
        | error e =>
          rw [hr] at hto
          simp only [exceptIsOk] at hto
          simp [rollParts, h1, h2, bind, Except.bind, exceptIsOk, hr, ← hto]
        | ok x =>
          obtain ⟨res, det, rng'⟩ := x
          rw [hr] at hto
          simp only [exceptIsOk] at hto
          by_cases hop : op = '+' <;>
            simp [rollParts, h1, h2, bind, Except.bind, hr, hop, ih, ← hto]

/-- C10 counterexample: the claim's failure condition is wrong in both
directions.  `"0d6"` has a dice term whose `N = 0` is non-positive, yet
rolling succeeds (the term contributes an empty sum of 0); `"3+4"` has
only pure-integer terms, yet rolling fails — the pure-number shortcut
fires (all characters are digits or signs) and `int("3+4")` raises
`ValueError`. -/
theorem claim_C10_counterexample :
    roll_dice "0d6" false [] = .ok ("", 0, []) ∧
    roll_dice "3+4" false [] = .error "ValueError: invalid literal for int" := by
  exact ⟨rfl, rfl⟩

/-- C10 (amended): rolling an expression (random mode) fails — with the
error propagated to the caller, never silently defaulted — exactly when
the digit-shortcut case (all characters digits, signs or spaces, at
least one digit) does not parse as one optionally-signed integer, or
some term of the scan is neither a Python integer nor an `NdM` pattern
with integer-parsing pieces, or some dice term has `M < 1` together with
`N ≥ 1`; a dice term with non-positive `N` alone does not fail (no die
is rolled) — captured by the `roll_dice_ok` observer, which the
success of `roll_dice` equals on every input and draw stream. -/
theorem claim_C10 (expr : String) (rng : List ℕ) :
    exceptIsOk (roll_dice expr false rng) = roll_dice_ok expr := by
  unfold roll_dice roll_dice_ok
  cases hsc : pyIsDigit (removeChar ' ' (removeChar '-' (removeChar '+' expr.data))) with
  | true =>
    simp only [hsc]
    cases hi : pyInt expr.data with
    | error e => simp [bind, Except.bind, exceptIsOk, hi]
    | ok v => simp [bind, Except.bind, exceptIsOk, hi]
  | false =>
    simp only [hsc]
    by_cases hlen : (splitParts (removeChar ' ' expr.data) []).length = 1
    · have hto := roll_single_dice_isOk
        ((splitParts (removeChar ' ' expr.data) []).headD []) rng
      cases hr : roll_single_dice false
          ((splitParts (removeChar ' ' expr.data) []).headD []) rng with
      | error e =>
        rw [hr] at hto
        simp only [exceptIsOk, List.headD_eq_head?] at hto
        simp [hlen, bind, Except.bind, exceptIsOk, hr, ← hto]
      | ok x =>
        obtain ⟨res, det, rng'⟩ := x
        rw [hr] at hto
        simp only [exceptIsOk, List.headD_eq_head?] at hto
        simp [hlen, bind, Except.bind, exceptIsOk, hr, ← hto]
    · have hparts := rollParts_isOk (splitParts (removeChar ' ' expr.data) [])
        '+' 0 [] rng
      cases hr : rollParts false (splitParts (removeChar ' ' expr.data) [])
          '+' 0 [] rng with
      | error e =>
        rw [hr] at hparts
        simp only [exceptIsOk] at hparts
        simp [hlen, bind, Except.bind, exceptIsOk, hr, ← hparts]
      | ok x =>
        obtain ⟨details0, total, rng'⟩ := x
        rw [hr] at hparts
        simp only [exceptIsOk] at hparts
        cases details0 with
        | nil => simp [hlen, bind, Except.bind, exceptIsOk, hr, ← hparts]
        | cons d rest =>
          by_cases hsw : strStartsWith d "+ " = true <;>
            simp [hlen, bind, Except.bind, exceptIsOk, hr, ← hparts, hsw]

end StoryTeller
